import Mathlib

/-!
Shallow embedding of `src/constants.py` (slambrick/little-science-python):
a table of physical constants, a species-mass resolver, and eight
wavelength/momentum/velocity/energy conversion functions.

Modelling choices:
* Exact constants (`h`, `c`, `kB`, `NA`, `mu`, `d002`, `mn`, `mHe`, `mHe3`,
  `meV2J`) are rational literals in `ℚ`, exactly the decimal literals of the
  source; `hbar = h/(2*pi)` needs `π` and lives in `ℝ`.
* Python's float arithmetic is embedded as exact real arithmetic: each
  conversion function maps `ℝ → ℝ` (rational constants are cast into `ℝ`).
* A Python function that may `raise ValueError(msg)` is embedded as a
  function into `Except String _`; `Except.error msg` is the raised error,
  and error propagation from the mass lookup is `Except.map`.
* The advisory `print` in the generic-helium branch of `get_species_mass`
  is a side channel that does not affect the returned value; it is modelled
  by the separate function `get_species_mass_advisory`, which returns the
  list of lines the call prints, derived from the same branch structure.
-/

-- Physical constants (src/constants.py lines 4-21)
def h : ℚ := 6.62607015e-34
noncomputable def hbar : ℝ := (h : ℝ) / (2 * Real.pi)
def c : ℚ := 299792458
def kB : ℚ := 1.380649e-23
def NA : ℚ := 6.02214076e-23
def mu : ℚ := 1.660539069e-27
def d002 : ℚ := 3.354e-10
def mn : ℚ := 1.6749275e-27
def mHe : ℚ := 4.002602 * mu
def mHe3 : ℚ := 3.0160293 * mu
def meV2J : ℚ := 1.6021892 * 1e-22

/-- Embeds `species.lower().replace(' ', '').replace('-', '')`: lowercase
every character, then remove every space and every hyphen. -/
def normalizeSpecies (s : String) : String :=
  String.mk ((s.data.map Char.toLower).filter (fun ch => ch != ' ' && ch != '-'))

/-- Embeds `get_species_mass` (src/constants.py lines 26-60); the local
`species_lower` is inlined. Returns the particle mass in kg, or the
`ValueError` message for an unrecognized species. -/
def get_species_mass (species : String) : Except String ℚ :=
  if normalizeSpecies species ∈ ["n", "neutron"] then
    Except.ok mn
  else if normalizeSpecies species ∈ ["he3", "helium3", "3he", "3helium"] then
    Except.ok mHe3
  else if normalizeSpecies species ∈ ["he4", "helium4", "4he", "4helium"] then
    Except.ok mHe
  else if normalizeSpecies species ∈ ["he", "helium"] then
    Except.ok mHe
  else
    Except.error ("Unknown species: " ++ species ++ ". Use 'n', 'He-3', 'He-4'")

/-- The lines printed by a call to `get_species_mass`: the generic-helium
branch (src/constants.py line 56) prints one advisory line, every other
branch prints nothing. -/
def get_species_mass_advisory (species : String) : List String :=
  if normalizeSpecies species ∈ ["n", "neutron"] then []
  else if normalizeSpecies species ∈ ["he3", "helium3", "3he", "3helium"] then []
  else if normalizeSpecies species ∈ ["he4", "helium4", "4he", "4helium"] then []
  else if normalizeSpecies species ∈ ["he", "helium"] then
    ["Warning: 'He' specified without isotope, defaulting to He-4"]
  else []

-- Conversion functions (src/constants.py lines 64-220)

/-- Embeds `lambda_to_E`: energy = (h**2 / (2 * m * wavelength**2)) / meV2J,
after resolving the species mass (failure propagates unchanged). -/
noncomputable def lambda_to_E (wavelength : ℝ) (species : String := "n") :
    Except String ℝ :=
  (get_species_mass species).map
    (fun m => ((h : ℝ) ^ 2 / (2 * (m : ℝ) * wavelength ^ 2)) / (meV2J : ℝ))

/-- Embeds `E_to_lambda`: wavelength = h / sqrt(2 * m * energy * meV2J). -/
noncomputable def E_to_lambda (energy : ℝ) (species : String := "n") :
    Except String ℝ :=
  (get_species_mass species).map
    (fun m => (h : ℝ) / Real.sqrt (2 * (m : ℝ) * energy * (meV2J : ℝ)))

/-- Embeds `lambda_to_p`: momentum = h / wavelength. The species argument is
accepted (default `'n'`) but the body never resolves it. -/
noncomputable def lambda_to_p (wavelength : ℝ) (species : String := "n") :
    Except String ℝ :=
  Except.ok ((h : ℝ) / wavelength)

/-- Embeds `p_to_lambda`: wavelength = h / momentum. The species argument is
accepted (default `'n'`) but the body never resolves it. -/
noncomputable def p_to_lambda (momentum : ℝ) (species : String := "n") :
    Except String ℝ :=
  Except.ok ((h : ℝ) / momentum)

/-- Embeds `E_to_p`: momentum = sqrt(2 * m * energy * meV2J). -/
noncomputable def E_to_p (energy : ℝ) (species : String := "n") :
    Except String ℝ :=
  (get_species_mass species).map
    (fun m => Real.sqrt (2 * (m : ℝ) * energy * (meV2J : ℝ)))

/-- Embeds `p_to_E`: energy = (momentum**2 / (2 * m)) / meV2J. -/
noncomputable def p_to_E (momentum : ℝ) (species : String := "n") :
    Except String ℝ :=
  (get_species_mass species).map
    (fun m => (momentum ^ 2 / (2 * (m : ℝ))) / (meV2J : ℝ))

/-- Embeds `v_to_E`: energy = (0.5 * m * velocity**2) / meV2J. -/
noncomputable def v_to_E (velocity : ℝ) (species : String := "n") :
    Except String ℝ :=
  (get_species_mass species).map
    (fun m => ((0.5 : ℝ) * (m : ℝ) * velocity ^ 2) / (meV2J : ℝ))

/-- Embeds `E_to_v`: velocity = sqrt(2 * energy * meV2J / m). -/
noncomputable def E_to_v (energy : ℝ) (species : String := "n") :
    Except String ℝ :=
  (get_species_mass species).map
    (fun m => Real.sqrt (2 * energy * (meV2J : ℝ) / (m : ℝ)))

instance {ε α : Type} [DecidableEq ε] [DecidableEq α] : DecidableEq (Except ε α) :=
  fun a b =>
    match a, b with
    | .ok x, .ok y =>
      if hxy : x = y then .isTrue (by rw [hxy]) else .isFalse (by simp [hxy])
    | .error x, .error y =>
      if hxy : x = y then .isTrue (by rw [hxy]) else .isFalse (by simp [hxy])
    | .ok _, .error _ => .isFalse (fun hc => Except.noConfusion hc)
    | .error _, .ok _ => .isFalse (fun hc => Except.noConfusion hc)

-- Neutron-fixed convenience wrappers.

/-- Modelled from the spec: the neutron-only convenience layer of spec
sections 4.2 and 6 ("eight neutron-fixed convenience wrappers with a
distinct naming convention (e.g. a neutron-prefixed name) delegating to the
generic versions with species forced to neutron") is not among the files
under src/; each wrapper takes no species argument and delegates to the
generic function with the species fixed to neutron. -/
noncomputable def n_lambda_to_E (wavelength : ℝ) : Except String ℝ :=
  lambda_to_E wavelength "n"

/-- Modelled from the spec: neutron-fixed wrapper of `E_to_lambda`. -/
noncomputable def n_E_to_lambda (energy : ℝ) : Except String ℝ :=
  E_to_lambda energy "n"

/-- Modelled from the spec: neutron-fixed wrapper of `lambda_to_p`. -/
noncomputable def n_lambda_to_p (wavelength : ℝ) : Except String ℝ :=
  lambda_to_p wavelength "n"

/-- Modelled from the spec: neutron-fixed wrapper of `p_to_lambda`. -/
noncomputable def n_p_to_lambda (momentum : ℝ) : Except String ℝ :=
  p_to_lambda momentum "n"

/-- Modelled from the spec: neutron-fixed wrapper of `E_to_p`. -/
noncomputable def n_E_to_p (energy : ℝ) : Except String ℝ :=
  E_to_p energy "n"

/-- Modelled from the spec: neutron-fixed wrapper of `p_to_E`. -/
noncomputable def n_p_to_E (momentum : ℝ) : Except String ℝ :=
  p_to_E momentum "n"

/-- Modelled from the spec: neutron-fixed wrapper of `v_to_E`. -/
noncomputable def n_v_to_E (velocity : ℝ) : Except String ℝ :=
  v_to_E velocity "n"

/-- Modelled from the spec: neutron-fixed wrapper of `E_to_v`. -/
noncomputable def n_E_to_v (energy : ℝ) : Except String ℝ :=
  E_to_v energy "n"

-- Shared helper lemmas.

lemma pos_h : (0 : ℚ) < h := by norm_num [h]

lemma pos_meV2J : (0 : ℚ) < meV2J := by norm_num [meV2J]

lemma pos_mn : (0 : ℚ) < mn := by norm_num [mn]

lemma pos_mHe3 : (0 : ℚ) < mHe3 := by norm_num [mHe3, mu]

lemma pos_mHe : (0 : ℚ) < mHe := by norm_num [mHe, mu]

/-- Every mass the resolver can return is positive. -/
lemma get_species_mass_pos {s : String} {m : ℚ}
    (hs : get_species_mass s = Except.ok m) : 0 < m := by
  unfold get_species_mass at hs
  split at hs
  · injection hs with hs; rw [← hs]; exact pos_mn
  · split at hs
    · injection hs with hs; rw [← hs]; exact pos_mHe3
    · split at hs
      · injection hs with hs; rw [← hs]; exact pos_mHe
      · split at hs
        · injection hs with hs; rw [← hs]; exact pos_mHe
        · exact Except.noConfusion hs

lemma str_append_assoc (a b d : String) : a ++ b ++ d = a ++ (b ++ d) := by
  rcases a with ⟨la⟩
  rcases b with ⟨lb⟩
  rcases d with ⟨ld⟩
  show String.mk (la ++ lb ++ ld) = String.mk (la ++ (lb ++ ld))
  rw [List.append_assoc]

example : get_species_mass "n" = Except.ok mn := rfl
example : get_species_mass "He-3" = Except.ok mHe3 := rfl
example : get_species_mass "He" = Except.ok mHe := rfl
example : (get_species_mass "xenon").isOk = false := rfl
example :
    get_species_mass "xenon" =
      Except.error "Unknown species: xenon. Use 'n', 'He-3', 'He-4'" := rfl

/-- C1: for each of the eight generic conversion functions there is a
neutron-fixed convenience wrapper (neutron-prefixed name, no species
argument) whose output on every numeric input equals the generic function
applied to the same input with the species fixed to neutron. -/
theorem neutron_wrappers_equal_generic_at_n (x : ℝ) :
    n_lambda_to_E x = lambda_to_E x "n" ∧
    n_E_to_lambda x = E_to_lambda x "n" ∧
    n_lambda_to_p x = lambda_to_p x "n" ∧
    n_p_to_lambda x = p_to_lambda x "n" ∧
    n_E_to_p x = E_to_p x "n" ∧
    n_p_to_E x = p_to_E x "n" ∧
    n_v_to_E x = v_to_E x "n" ∧
    n_E_to_v x = E_to_v x "n" :=
  ⟨rfl, rfl, rfl, rfl, rfl, rfl, rfl, rfl⟩

/-- C1 witness: the wrapper/generic agreement evaluated at input 1. -/
theorem neutron_wrappers_equal_generic_at_n_witness :
    n_lambda_to_E 1 = lambda_to_E 1 "n" ∧ n_E_to_v 1 = E_to_v 1 "n" :=
  ⟨(neutron_wrappers_equal_generic_at_n 1).1,
    (neutron_wrappers_equal_generic_at_n 1).2.2.2.2.2.2.2⟩

/-- C10: the wavelength/momentum conversions ignore their species argument
entirely: for every wavelength and any two species strings (recognized or
not) both functions return h divided by the input, the outputs agree, and
neither function ever returns an invalid-species error. -/
theorem lambda_p_conversions_ignore_species (x : ℝ) (s1 s2 : String) :
    lambda_to_p x s1 = Except.ok ((h : ℝ) / x) ∧
    p_to_lambda x s1 = Except.ok ((h : ℝ) / x) ∧
    lambda_to_p x s1 = lambda_to_p x s2 ∧
    p_to_lambda x s1 = p_to_lambda x s2 ∧
    (∀ msg : String, lambda_to_p x s1 ≠ Except.error msg) ∧
    (∀ msg : String, p_to_lambda x s1 ≠ Except.error msg) :=
  ⟨rfl, rfl, rfl, rfl, fun _ hc => Except.noConfusion hc,
    fun _ hc => Except.noConfusion hc⟩

/-- C10 witness: species-independence evaluated at wavelength 1 with the
unrecognized species strings "xenon" and "argon". -/
theorem lambda_p_conversions_ignore_species_witness :
    lambda_to_p 1 "xenon" = Except.ok ((h : ℝ) / 1) ∧
    lambda_to_p 1 "xenon" = lambda_to_p 1 "argon" :=
  ⟨(lambda_p_conversions_ignore_species 1 "xenon" "argon").1,
    (lambda_p_conversions_ignore_species 1 "xenon" "argon").2.2.1⟩

/-- C5: the wavelength-momentum round trip is exact for every nonzero
wavelength and every species: both directions are the pure reciprocal map
taking x to h / x, and composing them returns the wavelength exactly. -/
theorem p_lambda_roundtrip_exact (lam : ℝ) (s : String) (hlam : lam ≠ 0) :
    (lambda_to_p lam s).bind (fun p => p_to_lambda p s) = Except.ok lam ∧
    lambda_to_p lam s = Except.ok ((h : ℝ) / lam) ∧
    p_to_lambda lam s = Except.ok ((h : ℝ) / lam) := by
  refine ⟨?_, rfl, rfl⟩
  show Except.ok ((h : ℝ) / ((h : ℝ) / lam)) = Except.ok lam
  have hh : ((h : ℚ) : ℝ) ≠ 0 := by
    exact_mod_cast pos_h.ne'
  congr 1
  field_simp

/-- C5 witness: the exact round trip evaluated at wavelength 1, species
neutron. -/
theorem p_lambda_roundtrip_exact_witness :
    (lambda_to_p 1 "n").bind (fun p => p_to_lambda p "n") = Except.ok 1 ∧
    lambda_to_p 1 "n" = Except.ok ((h : ℝ) / 1) ∧
    p_to_lambda 1 "n" = Except.ok ((h : ℝ) / 1) :=
  p_lambda_roundtrip_exact 1 "n" one_ne_zero

/-- C2 counterexample: "xenon" is rejected by the resolver, yet
`lambda_to_p` called with species "xenon" returns a value and never raises
the resolver's invalid-species error, so not every one of the eight
conversion functions resolves the species mass first. -/
theorem lambda_to_p_does_not_propagate_resolver_rejection :
    get_species_mass "xenon" =
      Except.error "Unknown species: xenon. Use 'n', 'He-3', 'He-4'" ∧
    lambda_to_p 1 "xenon" = Except.ok ((h : ℝ) / 1) ∧
    lambda_to_p 1 "xenon" ≠
      Except.error "Unknown species: xenon. Use 'n', 'He-3', 'He-4'" :=
  ⟨rfl, rfl, fun hc => Except.noConfusion hc⟩

/-- C2 amended: the six conversion functions that need a mass
(`lambda_to_E`, `E_to_lambda`, `E_to_p`, `p_to_E`, `v_to_E`, `E_to_v`)
resolve the species first and surface the resolver's invalid-species error
unchanged, while `lambda_to_p` and `p_to_lambda` ignore the species
argument and always return h divided by the input. -/
theorem mass_conversions_propagate_resolver_error (x : ℝ) (s msg : String)
    (herr : get_species_mass s = Except.error msg) :
    lambda_to_E x s = Except.error msg ∧
    E_to_lambda x s = Except.error msg ∧
    E_to_p x s = Except.error msg ∧
    p_to_E x s = Except.error msg ∧
    v_to_E x s = Except.error msg ∧
    E_to_v x s = Except.error msg ∧
    lambda_to_p x s = Except.ok ((h : ℝ) / x) ∧
    p_to_lambda x s = Except.ok ((h : ℝ) / x) := by
  unfold lambda_to_E E_to_lambda E_to_p p_to_E v_to_E E_to_v lambda_to_p
    p_to_lambda
  rw [herr]
  exact ⟨rfl, rfl, rfl, rfl, rfl, rfl, rfl, rfl⟩

/-- C2 witness: the amended propagation statement evaluated at input 1 with
the rejected species "xenon". -/
theorem mass_conversions_propagate_resolver_error_witness :
    lambda_to_E 1 "xenon" =
      Except.error "Unknown species: xenon. Use 'n', 'He-3', 'He-4'" ∧
    E_to_lambda 1 "xenon" =
      Except.error "Unknown species: xenon. Use 'n', 'He-3', 'He-4'" ∧
    E_to_p 1 "xenon" =
      Except.error "Unknown species: xenon. Use 'n', 'He-3', 'He-4'" ∧
    p_to_E 1 "xenon" =
      Except.error "Unknown species: xenon. Use 'n', 'He-3', 'He-4'" ∧
    v_to_E 1 "xenon" =
      Except.error "Unknown species: xenon. Use 'n', 'He-3', 'He-4'" ∧
    E_to_v 1 "xenon" =
      Except.error "Unknown species: xenon. Use 'n', 'He-3', 'He-4'" ∧
    lambda_to_p 1 "xenon" = Except.ok ((h : ℝ) / 1) ∧
    p_to_lambda 1 "xenon" = Except.ok ((h : ℝ) / 1) :=
  mass_conversions_propagate_resolver_error 1 "xenon"
    "Unknown species: xenon. Use 'n', 'He-3', 'He-4'" rfl

/-- C3: the resolver normalizes by lowercasing and removing spaces and
hyphens; every string normalizing to a neutron alias returns mn, every
He-3 alias returns mHe3, every He-4 alias returns mHe; in particular
"He-3", "he3" and "3He" return the same mass. -/
theorem get_species_mass_alias_classes :
    (∀ s : String, normalizeSpecies s ∈ ["n", "neutron"] →
        get_species_mass s = Except.ok mn) ∧
    (∀ s : String, normalizeSpecies s ∈ ["he3", "helium3", "3he", "3helium"] →
        get_species_mass s = Except.ok mHe3) ∧
    (∀ s : String, normalizeSpecies s ∈ ["he4", "helium4", "4he", "4helium"] →
        get_species_mass s = Except.ok mHe) ∧
    (get_species_mass "He-3" = get_species_mass "he3" ∧
      get_species_mass "3He" = get_species_mass "he3") := by
  refine ⟨?_, ?_, ?_, rfl, rfl⟩ <;> intro s hs <;>
    simp only [List.mem_cons, List.not_mem_nil, or_false] at hs <;>
    unfold get_species_mass
  · rcases hs with hh | hh <;> rw [hh] <;> exact rfl
  · rcases hs with hh | hh | hh | hh <;> rw [hh] <;> exact rfl
  · rcases hs with hh | hh | hh | hh <;> rw [hh] <;> exact rfl

/-- C3 witness: alias resolution evaluated at "N", "HE-3", "4 He". -/
theorem get_species_mass_alias_classes_witness :
    get_species_mass "N" = Except.ok mn ∧
    get_species_mass "HE-3" = Except.ok mHe3 ∧
    get_species_mass "4 He" = Except.ok mHe :=
  ⟨get_species_mass_alias_classes.1 "N" (by decide),
    get_species_mass_alias_classes.2.1 "HE-3" (by decide),
    get_species_mass_alias_classes.2.2.1 "4 He" (by decide)⟩

/-- C6: on every species string whose normalized form is not a recognized
alias the resolver raises a ValueError whose message contains the given
species string and lists the three canonical choices. -/
theorem get_species_mass_unknown_error (s : String)
    (hn : normalizeSpecies s ∉
      ["n", "neutron", "he3", "helium3", "3he", "3helium",
        "he4", "helium4", "4he", "4helium", "he", "helium"]) :
    get_species_mass s =
      Except.error ("Unknown species: " ++ s ++ ". Use 'n', 'He-3', 'He-4'") ∧
    (∃ pre post : String,
      "Unknown species: " ++ s ++ ". Use 'n', 'He-3', 'He-4'" =
        pre ++ s ++ post) ∧
    (∃ pre : String,
      "Unknown species: " ++ s ++ ". Use 'n', 'He-3', 'He-4'" =
        pre ++ "'n', 'He-3', 'He-4'") := by
  simp only [List.mem_cons, List.not_mem_nil, or_false, not_or] at hn
  obtain ⟨h1, h2, h3, h4, h5, h6, h7, h8, h9, h10, h11, h12⟩ := hn
  refine ⟨?_, ⟨"Unknown species: ", ". Use 'n', 'He-3', 'He-4'", rfl⟩,
    ⟨"Unknown species: " ++ s ++ ". Use ", ?_⟩⟩
  · unfold get_species_mass
    rw [if_neg, if_neg, if_neg, if_neg] <;>
      simp [List.mem_cons, h1, h2, h3, h4, h5, h6, h7, h8, h9, h10, h11, h12]
  · rw [str_append_assoc ("Unknown species: " ++ s) ". Use "
      "'n', 'He-3', 'He-4'"]
    exact rfl

/-- C6 witness: the unknown-species error evaluated at "xenon". -/
theorem get_species_mass_unknown_error_witness :
    get_species_mass "xenon" =
      Except.error
        ("Unknown species: " ++ "xenon" ++ ". Use 'n', 'He-3', 'He-4'") ∧
    (∃ pre post : String,
      "Unknown species: " ++ "xenon" ++ ". Use 'n', 'He-3', 'He-4'" =
        pre ++ "xenon" ++ post) ∧
    (∃ pre : String,
      "Unknown species: " ++ "xenon" ++ ". Use 'n', 'He-3', 'He-4'" =
        pre ++ "'n', 'He-3', 'He-4'") :=
  get_species_mass_unknown_error "xenon" (by decide)

/-- C7: on every species string normalizing to "he" or "helium" the
resolver does not raise: it returns exactly the He-4 mass (the same value
as for "he4", which lies between 6.6464e-27 and 6.6466e-27 kg) while
printing a non-fatal advisory line, and the returned value is unchanged. -/
theorem get_species_mass_generic_he (s : String)
    (hs : normalizeSpecies s ∈ ["he", "helium"]) :
    get_species_mass s = Except.ok mHe ∧
    get_species_mass_advisory s ≠ [] ∧
    get_species_mass "he4" = Except.ok mHe ∧
    (6.6464e-27 : ℚ) < mHe ∧ mHe < (6.6466e-27 : ℚ) := by
  simp only [List.mem_cons, List.not_mem_nil, or_false] at hs
  refine ⟨?_, ?_, rfl, by norm_num [mHe, mu], by norm_num [mHe, mu]⟩
  · unfold get_species_mass
    rcases hs with hh | hh <;> rw [hh] <;> exact rfl
  · unfold get_species_mass_advisory
    rcases hs with hh | hh <;> rw [hh] <;> decide

/-- C7 witness: the ambiguous-isotope path evaluated at "He". -/
theorem get_species_mass_generic_he_witness :
    get_species_mass "He" = Except.ok mHe ∧
    get_species_mass_advisory "He" ≠ [] ∧
    get_species_mass "he4" = Except.ok mHe ∧
    (6.6464e-27 : ℚ) < mHe ∧ mHe < (6.6466e-27 : ℚ) :=
  get_species_mass_generic_he "He" (by decide)

/-- C4: for every energy E > 0 and every species accepted by the resolver,
converting the energy to a wavelength and back returns E exactly over
exact real arithmetic (hence within any relative tolerance). -/
theorem lambda_E_roundtrip (E : ℝ) (s : String) (m : ℚ) (hE : 0 < E)
    (hs : get_species_mass s = Except.ok m) :
    (E_to_lambda E s).bind (fun lam => lambda_to_E lam s) = Except.ok E := by
  have hm : (0 : ℚ) < m := get_species_mass_pos hs
  have hmR : (0 : ℝ) < (m : ℝ) := by exact_mod_cast hm
  have hkR : (0 : ℝ) < ((meV2J : ℚ) : ℝ) := by exact_mod_cast pos_meV2J
  have hhR : (0 : ℝ) < ((h : ℚ) : ℝ) := by exact_mod_cast pos_h
  have hx : (0 : ℝ) < 2 * (m : ℝ) * E * (meV2J : ℝ) := by positivity
  have step : E_to_lambda E s =
      Except.ok ((h : ℝ) / Real.sqrt (2 * (m : ℝ) * E * (meV2J : ℝ))) := by
    unfold E_to_lambda
    rw [hs]
    rfl
  rw [step]
  show lambda_to_E ((h : ℝ) / Real.sqrt (2 * (m : ℝ) * E * (meV2J : ℝ))) s =
    Except.ok E
  unfold lambda_to_E
  rw [hs]
  show Except.ok
      (((h : ℝ) ^ 2 /
          (2 * (m : ℝ) *
            ((h : ℝ) / Real.sqrt (2 * (m : ℝ) * E * (meV2J : ℝ))) ^ 2)) /
        (meV2J : ℝ)) =
    Except.ok E
  congr 1
  rw [div_pow, Real.sq_sqrt hx.le]
  field_simp
  ring

/-- C4 witness: the round trip evaluated at E = 1 meV, species "n". -/
theorem lambda_E_roundtrip_witness :
    (E_to_lambda 1 "n").bind (fun lam => lambda_to_E lam "n") = Except.ok 1 :=
  lambda_E_roundtrip 1 "n" mn one_pos rfl

/-- C9: lambda_to_E at wavelength 1.8e-10 m with species neutron returns an
energy inside [25.27 * 0.995, 25.27 * 1.005] meV, i.e. within 0.5 percent
of the 25.27 meV thermal-neutron reference value. -/
theorem lambda_to_E_thermal_reference :
    ∃ e : ℝ,
      lambda_to_E (1.8e-10) "n" = Except.ok e ∧
      (25.27 * 0.995 : ℝ) ≤ e ∧ e ≤ (25.27 * 1.005 : ℝ) := by
  refine ⟨((h : ℝ) ^ 2 / (2 * (mn : ℝ) * (1.8e-10 : ℝ) ^ 2)) / (meV2J : ℝ),
    rfl, ?_, ?_⟩ <;>
  · rw [show (h : ℚ) = 6.62607015e-34 from rfl,
      show (mn : ℚ) = 1.6749275e-27 from rfl,
      show (meV2J : ℚ) = 1.6021892 * 1e-22 from rfl]
    push_cast
    norm_num

/-- C8: the module constants carry exactly the literal values of the spec
table; in particular NA keeps the mislabeled 6.02214076e-23 value and is
not corrected to 6.02214076e23. (The embedding has no mutation: each
constant is a single immutable definition.) -/
theorem constants_match_spec_table :
    h = 6.62607015e-34 ∧
    hbar = (h : ℝ) / (2 * Real.pi) ∧
    c = 299792458 ∧
    kB = 1.380649e-23 ∧
    NA = 6.02214076e-23 ∧
    NA ≠ 6.02214076e23 ∧
    mu = 1.660539069e-27 ∧
    d002 = 3.354e-10 ∧
    mn = 1.6749275e-27 ∧
    mHe = 4.002602 * mu ∧
    mHe3 = 3.0160293 * mu ∧
    meV2J = 1.6021892e-22 := by
  refine ⟨rfl, rfl, rfl, rfl, rfl, ?_, rfl, rfl, rfl, rfl, rfl, ?_⟩
  · norm_num [NA]
  · norm_num [meV2J]
